import Mathlib

/-!
Shallow embedding of the Gated-FIFO conveyor-sorter core (queue algebra,
maintenance latch, sensor edge detection, sort executor, GPIO handler) and
proofs of the specified properties against it.

Time (Python time.time values) is modelled by integers; only order and
differences of timestamps matter to the embedded code.  GPIO reads and
writes that can raise are modelled by an explicit outcome parameter.
-/

namespace QrScan

/-- State held by ErrorHandler: the maintenance latch and its reason
(fields maintenance_mode and last_error of src/error_handler.py). -/
structure ErrorHandlerState where
  maintenance_mode : Bool
  last_error : Option String
deriving DecidableEq, Repr

/-- ErrorHandler.trigger_maintenance: a no-op when already latched, else
latches the flag and stores the reason. -/
def trigger_maintenance (s : ErrorHandlerState) (message : String) : ErrorHandlerState :=
  if s.maintenance_mode then s
  else { maintenance_mode := true, last_error := some message }

/-- ErrorHandler.reset: a no-op when not latched, else clears flag and reason. -/
def reset (s : ErrorHandlerState) : ErrorHandlerState :=
  if !s.maintenance_mode then s
  else { maintenance_mode := false, last_error := none }

/-- ErrorHandler.is_maintenance. -/
def is_maintenance (s : ErrorHandlerState) : Bool :=
  s.maintenance_mode

/-- A queued recognition: the dict built in SortingSystem._qr_detection_loop
and stored in QueueManager.qr_queue. -/
structure QRItem where
  lane_index : Nat
  qr_key : String
  lane_id : String
  timestamp : Int
  map_source : String
  data_raw : String
deriving DecidableEq, Repr

/-- QueueManager.add_qr_item: append at the tail of the QR queue. -/
def add_qr_item (q : List QRItem) (item : QRItem) : List QRItem :=
  q ++ [item]

/-- QueueManager.add_qr_item_at_head: list.insert(0, item). -/
def add_qr_item_at_head (q : List QRItem) (item : QRItem) : List QRItem :=
  item :: q

/-- QueueManager._update_state_indices: projection of the QR queue to its
target lane indices, written through to the state store. -/
def queue_indices_of (q : List QRItem) : List Nat :=
  q.map (fun item => item.lane_index)

/-- QueueManager.pop_qr_by_index: remove and return the first queued item
whose lane_index matches; None when there is no such item. -/
def pop_qr_by_index (q : List QRItem) (lane_index : Nat) : Option QRItem × List QRItem :=
  match q with
  | [] => (none, [])
  | item :: rest =>
    if item.lane_index = lane_index then (some item, rest)
    else
      let r := pop_qr_by_index rest lane_index
      (r.1, item :: r.2)

/-- QueueManager.check_qr_timeout: pop and return the head item when its age
is strictly greater than the timeout, else leave the queue unchanged. -/
def check_qr_timeout (now timeout : Int) (q : List QRItem) : Option QRItem × List QRItem :=
  match q with
  | [] => (none, [])
  | head_item :: rest =>
    if now - head_item.timestamp > timeout then (some head_item, rest)
    else (none, head_item :: rest)

/-- QueueManager.add_entry_token: append True to entry_queue and return the
new length. -/
def add_entry_token (tq : List Bool) : List Bool × Nat :=
  (tq ++ [true], (tq ++ [true]).length)

/-- QueueManager.consume_entry_token: pop one token when present; the Bool
result is True exactly when a token was consumed. -/
def consume_entry_token (tq : List Bool) : Bool × List Bool :=
  match tq with
  | [] => (false, [])
  | _ :: rest => (true, rest)

/-- QueueManager.is_entry_queue_empty. -/
def is_entry_queue_empty (tq : List Bool) : Bool :=
  tq.isEmpty

/-- QueueManager.get_entry_queue_length. -/
def get_entry_queue_length (tq : List Bool) : Nat :=
  tq.length

/-- Combined QueueManager state: the two queues plus the queue_indices
projection the manager writes through to SystemState.state on every QR-queue
mutation. -/
structure QMState where
  qr_queue : List QRItem
  entry_queue : List Bool
  queue_indices : List Nat
deriving DecidableEq, Repr

/-- QueueManager.add_qr_item with the state-store write-through. -/
def qm_add_qr_item (q : QMState) (item : QRItem) : QMState :=
  let qq := add_qr_item q.qr_queue item
  { q with qr_queue := qq, queue_indices := queue_indices_of qq }

/-- QueueManager.add_qr_item_at_head with the state-store write-through. -/
def qm_add_qr_item_at_head (q : QMState) (item : QRItem) : QMState :=
  let qq := add_qr_item_at_head q.qr_queue item
  { q with qr_queue := qq, queue_indices := queue_indices_of qq }

/-- QueueManager.pop_qr_by_index with the state-store write-through (the
projection is refreshed only when an item was removed, as in the source). -/
def qm_pop_qr_by_index (q : QMState) (lane_index : Nat) : Option QRItem × QMState :=
  let r := pop_qr_by_index q.qr_queue lane_index
  match r.1 with
  | some item =>
      (some item, { q with qr_queue := r.2, queue_indices := queue_indices_of r.2 })
  | none => (none, q)

/-- QueueManager.check_qr_timeout with the state-store write-through. -/
def qm_check_qr_timeout (now timeout : Int) (q : QMState) : Option QRItem × QMState :=
  let r := check_qr_timeout now timeout q.qr_queue
  match r.1 with
  | some item =>
      (some item, { q with qr_queue := r.2, queue_indices := queue_indices_of r.2 })
  | none => (none, q)

/-- QueueManager.add_entry_token on the combined state. -/
def qm_add_entry_token (q : QMState) : QMState × Nat :=
  let r := add_entry_token q.entry_queue
  ({ q with entry_queue := r.1 }, r.2)

/-- QueueManager.consume_entry_token on the combined state. -/
def qm_consume_entry_token (q : QMState) : Bool × QMState :=
  let r := consume_entry_token q.entry_queue
  (r.1, { q with entry_queue := r.2 })

/-- QueueManager.clear_all_queues: empty both queues (and hence the
projection). -/
def qm_clear_all_queues (_q : QMState) : QMState :=
  { qr_queue := [], entry_queue := [], queue_indices := queue_indices_of [] }

/-- One lane entry of SystemState.state["lanes"]: config fields fused with
runtime fields, as built by SystemState._initialize_lanes.  The lanes are
Python dicts, so a key written later by update_lane_status that is not part
of the initial shape (entry_token_count, written by the sensor monitor) is
modelled as an Option field that starts out absent. -/
structure Lane where
  name : String
  id : String
  status : String
  count : Nat
  sensor_pin : Option Nat
  push_pin : Option Nat
  pull_pin : Option Nat
  sensor_reading : Nat
  relay_grab : Nat
  relay_push : Nat
  entry_token_count : Option Nat := none
deriving DecidableEq, Repr

/-- An update dict passed to SystemState.update_lane_status; absent keys
leave the lane field unchanged (dict.update semantics). -/
structure LaneUpdate where
  status : Option String := none
  count : Option Nat := none
  sensor_reading : Option Nat := none
  relay_grab : Option Nat := none
  relay_push : Option Nat := none
  entry_token_count : Option Nat := none
deriving DecidableEq, Repr

/-- Python dict.update applied to one lane entry. -/
def applyLaneUpdate (l : Lane) (u : LaneUpdate) : Lane :=
  { l with
    status := u.status.getD l.status
    count := u.count.getD l.count
    sensor_reading := u.sensor_reading.getD l.sensor_reading
    relay_grab := u.relay_grab.getD l.relay_grab
    relay_push := u.relay_push.getD l.relay_push
    entry_token_count := u.entry_token_count.orElse (fun _ => l.entry_token_count) }

/-- SystemState.update_lane_status: merge the update into lane `index` when
`0 <= index < len(lanes)`, returning True; otherwise leave the state
unchanged and return False.  The index is a Nat here because every call site
passes a non-negative index, so the Python lower bound is automatic. -/
def update_lane_status (lanes : List Lane) (index : Nat) (u : LaneUpdate) :
    List Lane × Bool :=
  match lanes[index]? with
  | some lane => (lanes.set index (applyLaneUpdate lane u), true)
  | none => (lanes, false)

/-- PIN_ENTRY from src/src/constants.py (the gate sensor pin). -/
def PIN_ENTRY : Nat := 6

/-- GPIOHandler.read_sensor.  The underlying provider read is modelled by an
explicit outcome function (Except.error is a raised exception).  The source
returns HIGH (1) for a None pin without touching the provider, and catches
any provider exception, latching maintenance and returning HIGH; no
exception ever escapes to the caller, which is why the result type is a
plain pair. -/
def read_sensor (gpio_read : Nat → Except String Nat) (err : ErrorHandlerState)
    (pin : Option Nat) : Nat × ErrorHandlerState :=
  match pin with
  | none => (1, err)
  | some p =>
    match gpio_read p with
    | Except.ok v => (v, err)
    | Except.error _e => (1, trigger_maintenance err ("read sensor failure"))

/-- One relay call issued by the core through GPIOHandler. -/
inductive RelayEvent
  | on (pin : Nat)
  | off (pin : Nat)
deriving DecidableEq, Repr

/-- GPIOHandler.relay_on: a no-op for a None pin; otherwise one provider
write (active-low LOW).  A provider failure is caught inside the handler,
which latches maintenance and returns normally — the caller never sees an
exception.  The event list records the relay calls issued. -/
def relay_on (fails : Nat → Bool) (err : ErrorHandlerState) (pin : Option Nat) :
    ErrorHandlerState × List RelayEvent :=
  match pin with
  | none => (err, [])
  | some p =>
    (if fails p then trigger_maintenance err ("relay on failure") else err,
     [RelayEvent.on p])

/-- GPIOHandler.relay_off: as relay_on, writing the inactive level. -/
def relay_off (fails : Nat → Bool) (err : ErrorHandlerState) (pin : Option Nat) :
    ErrorHandlerState × List RelayEvent :=
  match pin with
  | none => (err, [])
  | some p =>
    (if fails p then trigger_maintenance err ("relay off failure") else err,
     [RelayEvent.off p])

/-- Gate (entry) edge acceptance in _sensor_monitoring_thread: a falling
edge is accepted when the current level is 0 and the time since the last
accepted edge is strictly greater than the debounce interval; on acceptance
last_entry_trigger_time is set to now. -/
def entry_edge_step (debounce now : Int) (level : Nat) (last_trigger : Int) :
    Bool × Int :=
  if level = 0 ∧ now - last_trigger > debounce then (true, now)
  else (false, last_trigger)

/-- Per-lane edge acceptance in _sensor_monitoring_thread: the falling edge
test (level 0, previous level 1) with the strictly-greater debounce test
nested inside it; last_s_trig[i] is refreshed only on acceptance. -/
def lane_edge_step (debounce now : Int) (level last_level : Nat) (last_trig : Int) :
    Bool × Int :=
  if level = 0 ∧ last_level = 1 then
    if now - last_trig > debounce then (true, now) else (false, last_trig)
  else (false, last_trig)

/-- The state visible to one iteration of the sensor-monitor loop: the
state-store lane list with its queue_indices mirror, both queues, the
maintenance latch, the auto-test flag, the monitor-private edge state, and
the sort jobs submitted to the executor pool during the iteration. -/
structure MonState where
  lanes : List Lane
  qm : QMState
  err : ErrorHandlerState
  auto_test_enabled : Bool
  last_s_state : List Nat
  last_s_trig : List Int
  last_entry_trigger_time : Int
  sorts : List (Nat × Option QRItem)
deriving DecidableEq, Repr

/-- SortingSystem._process_sort_trigger: look the lane up, set its status
(pass-through lanes go straight to the passing status, sorting lanes to the
waiting-for-push status) and submit the job to the worker pool. -/
def process_sort_trigger (s : MonState) (lane_index : Nat) (item : Option QRItem) :
    MonState :=
  match s.lanes[lane_index]? with
  | none => s
  | some info =>
    let st := if info.push_pin.isNone then "Đang đi thẳng..." else "Đang chờ đẩy"
    { s with
      lanes := (update_lane_status s.lanes lane_index { status := some st }).1
      sorts := s.sorts ++ [(lane_index, item)] }

/-- The two-way Gated-FIFO match decision run on an accepted lane edge
(main.py lines 337-372): pop the first QR for this lane; with a QR, consume
a token and sort on success, else return the QR to the queue head; with no
QR but tokens available, consume and sort only for a pass-through lane;
otherwise do nothing. -/
def gated_match (s : MonState) (lane_index : Nat) (push_pin : Option Nat) : MonState :=
  let r := qm_pop_qr_by_index s.qm lane_index
  match r.1 with
  | some item =>
    let c := qm_consume_entry_token r.2
    if c.1 then process_sort_trigger { s with qm := c.2 } lane_index (some item)
    else { s with qm := qm_add_qr_item_at_head c.2 item }
  | none =>
    if !(is_entry_queue_empty r.2.entry_queue) then
      match push_pin with
      | none =>
        let c := qm_consume_entry_token r.2
        process_sort_trigger { s with qm := c.2 } lane_index none
      | some _ => { s with qm := r.2 }
    else { s with qm := r.2 }

/-- Step 1 of the monitor iteration: QR-queue head timeout; on a drop the
expected lane status is reset to ready. -/
def timeout_step (now queue_timeout : Int) (s : MonState) : MonState :=
  let r := qm_check_qr_timeout now queue_timeout s.qm
  match r.1 with
  | some item =>
    { s with
      qm := r.2
      lanes := (update_lane_status s.lanes item.lane_index { status := some "Sẵn sàng" }).1 }
  | none => { s with qm := r.2 }

/-- Step 2 of the monitor iteration: read the gate sensor, add a token on an
accepted falling edge, then write the gate reading to the state store under
index num_lanes.  read_sensor never raises (a provider failure latches
maintenance and reads as 1), so the except branch of the source that would
skip the iteration is unreachable for provider failures. -/
def entry_step (debounce now : Int) (num_lanes : Nat)
    (gpio_read : Nat → Except String Nat) (s : MonState) : MonState :=
  let rd := read_sensor gpio_read s.err (some PIN_ENTRY)
  let s1 := { s with err := rd.2 }
  let e := entry_edge_step debounce now rd.1 s1.last_entry_trigger_time
  let s2 :=
    if e.1 then
      { s1 with
        last_entry_trigger_time := e.2
        qm := (qm_add_entry_token s1.qm).1 }
    else s1
  { s2 with
    lanes := (update_lane_status s2.lanes num_lanes { sensor_reading := some rd.1 }).1 }

/-- One pass of the per-lane loop body (step 3 of the monitor iteration) for
lane `i`: skip lanes without a sensor pin, read the sensor (failures latch
maintenance and read as 1), mirror the reading into the state store, run the
edge detector and on an accepted edge the gated match; finally record the
level in last_s_state[i]. -/
def lane_body (debounce now : Int) (gpio_read : Nat → Except String Nat)
    (s : MonState) (i : Nat) : MonState :=
  match s.lanes[i]? with
  | none => s
  | some lane_cfg =>
    match lane_cfg.sensor_pin with
    | none => s
    | some sensor_pin =>
      let rd := read_sensor gpio_read s.err (some sensor_pin)
      let sensor_now := rd.1
      let s1 :=
        { s with
          err := rd.2
          lanes := (update_lane_status s.lanes i { sensor_reading := some sensor_now }).1 }
      let e := lane_edge_step debounce now sensor_now (s1.last_s_state.getD i 1)
        (s1.last_s_trig.getD i 0)
      let s2 :=
        if e.1 then
          gated_match { s1 with last_s_trig := s1.last_s_trig.set i e.2 } i
            lane_cfg.push_pin
        else s1
      { s2 with last_s_state := s2.last_s_state.set i sensor_now }

/-- One iteration of SortingSystem._sensor_monitoring_thread in the
Gated-FIFO variant: skipped entirely under maintenance or auto-test;
otherwise head timeout, gate sampling, the per-lane scan, and finally the
entry-token count exported to the state store under index num_lanes. -/
def sensor_iteration (debounce queue_timeout now : Int)
    (gpio_read : Nat → Except String Nat) (s : MonState) : MonState :=
  if is_maintenance s.err || s.auto_test_enabled then s
  else
    let num_lanes := s.lanes.length
    let s1 := timeout_step now queue_timeout s
    let s2 := entry_step debounce now num_lanes gpio_read s1
    let s3 := (List.range num_lanes).foldl (lane_body debounce now gpio_read) s2
    { s3 with
      lanes := (update_lane_status s3.lanes num_lanes
        { entry_token_count := some (get_entry_queue_length s3.qm.entry_queue) }).1 }

/-- The tail of SortingSystem._sorting_process (the finally block): on
success increment the count and set the status to ready; on failure only
reset the status. -/
def sort_finally (lane : Lane) (err : ErrorHandlerState) (evs : List RelayEvent)
    (success : Bool) : Lane × ErrorHandlerState × List RelayEvent × Bool :=
  if success then
    ({ lane with count := lane.count + 1, status := "Sẵn sàng" }, err, evs, true)
  else
    ({ lane with status := "Sẵn sàng" }, err, evs, false)

/-- SortingSystem._sorting_process: pass-through lanes just count; sorting
lanes run the four-phase piston cycle, checking main_running between phases
(`running k` is the flag at the k-th check).  Relay failures are swallowed
inside GPIOHandler (latching maintenance), so they do not abort the cycle:
operation_successful stays True unless a shutdown check returns early.
Result: (lane after the finally block, error state, relay calls issued,
operation_successful). -/
def sorting_process (fails : Nat → Bool) (running : Nat → Bool)
    (lane : Lane) (err : ErrorHandlerState) :
    Lane × ErrorHandlerState × List RelayEvent × Bool :=
  match lane.push_pin, lane.pull_pin with
  | some push_pin, some pull_pin =>
    let lane0 := { lane with status := "Đang phân loại..." }
    let r1 := relay_off fails err (some pull_pin)
    let lane1 := { lane0 with relay_grab := 0 }
    if !(running 0) then sort_finally lane1 r1.1 r1.2 false else
    let r2 := relay_on fails r1.1 (some push_pin)
    let lane2 := { lane1 with relay_push := 1 }
    if !(running 1) then sort_finally lane2 r2.1 (r1.2 ++ r2.2) false else
    let r3 := relay_off fails r2.1 (some push_pin)
    let lane3 := { lane2 with relay_push := 0 }
    if !(running 2) then sort_finally lane3 r3.1 (r1.2 ++ r2.2 ++ r3.2) false else
    let r4 := relay_on fails r3.1 (some pull_pin)
    let lane4 := { lane3 with relay_grab := 1 }
    sort_finally lane4 r4.1 (r1.2 ++ r2.2 ++ r3.2 ++ r4.2) true
  | _, _ =>
    let lane1 := { lane with status := "Đang đi thẳng..." }
    sort_finally lane1 err [] true

/-- The relay calls of one full piston cycle, as issued by sorting_process
when no shutdown intervenes. -/
def sort_cycle_events (push_pin pull_pin : Nat) : List RelayEvent :=
  (sorting_process (fun _ => false) (fun _ => true)
    { name := "L", id := "L", status := "Sẵn sàng", count := 0,
      sensor_pin := none, push_pin := some push_pin, pull_pin := some pull_pin,
      sensor_reading := 1, relay_grab := 0, relay_push := 0 }
    { maintenance_mode := false, last_error := none }).2.2.1

/-- A configuration of the maintenance/actuator interleaving model: the
maintenance latch, the remaining relay calls of an in-flight worker (a sort
cycle from _sorting_process or a test sweep from run_test_all_relays_worker),
the process-wide running flag, and the trace of relay calls issued so far,
each tagged with the maintenance flag at the moment of the call. -/
structure CoreConf where
  err : ErrorHandlerState
  pending : List RelayEvent
  running : Bool
  trace : List (Bool × RelayEvent)
deriving DecidableEq, Repr

/-- Interleaved steps of the core.  `trigger` is any thread latching
maintenance through ErrorHandler.trigger_maintenance.  `relayStep` is an
in-flight worker issuing its next relay call: _sorting_process and
run_test_all_relays_worker guard their phases only with main_running and
never consult ErrorHandler.is_maintenance, so the step is available
regardless of the maintenance flag. -/
inductive CoreStep : CoreConf → CoreConf → Prop
  | trigger (c : CoreConf) (message : String) :
      CoreStep c { c with err := trigger_maintenance c.err message }
  | relayStep (c : CoreConf) (e : RelayEvent) (rest : List RelayEvent)
      (hp : c.pending = e :: rest) (hr : c.running = true) :
      CoreStep c { c with
        pending := rest
        trace := c.trace ++ [(c.err.maintenance_mode, e)] }

/-- Reflexive-transitive closure of CoreStep. -/
inductive CoreReachable : CoreConf → CoreConf → Prop
  | refl (c : CoreConf) : CoreReachable c c
  | tail {a b c : CoreConf} : CoreReachable a b → CoreStep b c → CoreReachable a c

/-- One call against the entry-token queue, for quantifying over operation
sequences. -/
inductive TokenOp
  | add
  | consume
deriving DecidableEq, Repr

/-- Number of add() calls in a sequence. -/
def count_adds (ops : List TokenOp) : Nat :=
  (ops.filter (fun o => o = TokenOp.add)).length

/-- Number of consume() calls in a sequence. -/
def count_consumes (ops : List TokenOp) : Nat :=
  (ops.filter (fun o => o = TokenOp.consume)).length

/-- Run a sequence of entry-token operations against the queue, returning
the final queue and the number of consume() calls that returned True. -/
def run_token_ops : List TokenOp → List Bool → List Bool × Nat
  | [], tq => (tq, 0)
  | TokenOp.add :: ops, tq => run_token_ops ops (add_entry_token tq).1
  | TokenOp.consume :: ops, tq =>
    let c := consume_entry_token tq
    let r := run_token_ops ops c.2
    (r.1, if c.1 then r.2 + 1 else r.2)

/-- Character test of the canon_id filter stage, re.sub("[^A-Z0-9]", "", s):
keep exactly the ASCII uppercase letters and digits. -/
def isUpperAlnum (c : Char) : Bool :=
  (65 ≤ c.toNat && c.toNat ≤ 90) || (48 ≤ c.toNat && c.toNat ≤ 57)

/-- Whitespace stripped by Python str.strip, on the ASCII range (tab through
carriage return, and the space character).  str.strip also strips a few
non-ASCII unicode spaces, none of which survive the later [^A-Z0-9] filter,
so the ASCII model is exact where canon_id re-visits its own output. -/
def isPyWhitespace (c : Char) : Bool :=
  c.toNat = 32 || (9 ≤ c.toNat && c.toNat ≤ 13)

/-- Python str.strip(): drop leading and trailing whitespace. -/
def pyStrip (s : List Char) : List Char :=
  ((s.dropWhile isPyWhitespace).reverse.dropWhile isPyWhitespace).reverse

/-- Modelled from the spec: the canon_id round-trip
s.encode("utf-8").decode("unicode_escape") inside try/except-pass is a
Python-stdlib external.  It maps every string without a backslash character
to itself (there is no escape sequence to rewrite), and on a decode failure
the except branch keeps the string unchanged; those are the only behaviors
the verified properties depend on, because the output alphabet of canon_id
is backslash-free.  The model therefore keeps the string unchanged. -/
def unicodeEscapeTry (s : List Char) : List Char :=
  s

/-- Modelled from the spec: unicodedata.combining is a Python-stdlib
external; the model recognizes the main combining-diacritics block
U+0300..U+036F.  No ASCII character is combining, which is the fragment the
verified properties depend on. -/
def combining (c : Char) : Bool :=
  768 ≤ c.toNat && c.toNat ≤ 879

/-- Modelled from the spec: _strip_accents normalizes to NFKD and drops
combining marks; unicodedata.normalize is a Python-stdlib external whose
table-driven decomposition is the identity on ASCII, the fragment canon_id
re-visits, so the model keeps characters and drops the combining ones. -/
def strip_accents (s : List Char) : List Char :=
  s.filter (fun c => !(combining c))

/-- Modelled from the spec: Python str.upper on one character; exact on the
ASCII range (maps a..z to A..Z, fixes everything else ASCII).  Non-ASCII
case mappings, including the rare multi-character expansions, are modelled
as the identity; such characters are removed by the [^A-Z0-9] filter either
way. -/
def pyUpperChar (c : Char) : Char :=
  if 97 ≤ c.toNat ∧ c.toNat ≤ 122 then Char.ofNat (c.toNat - 32) else c

/-- Python str.upper over the string. -/
def pyUpper (s : List Char) : List Char :=
  s.map pyUpperChar

/-- The re.sub("^(LOAI|LO)+", "", s) stage of canon_id.  The regex engine
repeatedly matches the alternation at the current position, preferring LOAI
over LO, and stops at the first position where neither alternative matches;
nothing follows the group, so no backtracking occurs.  The match-priority
order of the patterns reproduces that exactly. -/
def stripLoai : List Char → List Char
  | 'L' :: 'O' :: 'A' :: 'I' :: rest => stripLoai rest
  | 'L' :: 'O' :: rest => stripLoai rest
  | s => s

/-- utils.canon_id on a present (non-None) string: strip, the
unicode-escape round-trip, diacritic stripping, uppercasing, the [^A-Z0-9]
filter, and the leading LOAI/LO strip. -/
def canon_id (s : List Char) : List Char :=
  stripLoai ((pyUpper (strip_accents (unicodeEscapeTry (pyStrip s)))).filter isUpperAlnum)

/-- utils.canon_id including the None guard of the source. -/
def canon_id_opt : Option (List Char) → List Char
  | none => []
  | some s => canon_id s

/-- A sample queued recognition for lane 0, used in concrete evaluations. -/
def sampleItem : QRItem :=
  { lane_index := 0, qr_key := "A", lane_id := "A", timestamp := 0,
    map_source := "qr", data_raw := "A" }

/-- A sample queued recognition for lane 1, used in concrete evaluations. -/
def sampleItemB : QRItem :=
  { lane_index := 1, qr_key := "B", lane_id := "B", timestamp := 2,
    map_source := "qr", data_raw := "B" }

/-- C8: trigger(reason) while maintenance is already active leaves the
ErrorHandler state (flag and stored reason) unchanged, and reset() in the
active state clears both the flag and the reason. -/
theorem trigger_idempotent_and_reset_clears :
    (∀ (s : ErrorHandlerState) (reason2 : String),
        s.maintenance_mode = true → trigger_maintenance s reason2 = s) ∧
    (∀ s : ErrorHandlerState, s.maintenance_mode = true →
        reset s = { maintenance_mode := false, last_error := none }) := by
  constructor
  · intro s r2 h
    simp [trigger_maintenance, h]
  · intro s h
    simp [reset, h]

/-- Witness for C8 at a concrete active state. -/
theorem trigger_idempotent_and_reset_clears_witness :
    trigger_maintenance
        { maintenance_mode := true, last_error := some ("overheat") } ("late") =
      { maintenance_mode := true, last_error := some ("overheat") } ∧
    reset { maintenance_mode := true, last_error := some ("overheat") } =
      { maintenance_mode := false, last_error := none } :=
  ⟨trigger_idempotent_and_reset_clears.1 _ _ rfl,
   trigger_idempotent_and_reset_clears.2 _ rfl⟩

/-- C4 counterexample: a head whose age equals the timeout exactly (age = T,
hence at least T) is not returned; check_qr_timeout requires the age to be
strictly greater and leaves the queue unchanged here. -/
theorem timeout_head_boundary_counterexample :
    5 - sampleItem.timestamp ≥ 5 ∧
    check_qr_timeout 5 5 [sampleItem] = (none, [sampleItem]) := by
  constructor
  · decide
  · rfl

/-- C4 amended: check_qr_timeout returns (and removes) the head item if and
only if the head's age is strictly greater than the timeout; when the queue
is empty or the head's age is at most the timeout it returns nothing and
the queue is unchanged. -/
theorem check_qr_timeout_strict :
    ∀ (now timeout : Int) (q : List QRItem),
      ((check_qr_timeout now timeout q).1.isSome ↔
        ∃ head_item rest, q = head_item :: rest ∧ now - head_item.timestamp > timeout) ∧
      ((check_qr_timeout now timeout q).1 = none →
        (check_qr_timeout now timeout q).2 = q) ∧
      (∀ head_item rest, q = head_item :: rest →
        now - head_item.timestamp > timeout →
        check_qr_timeout now timeout q = (some head_item, rest)) := by
  intro now timeout q
  match q with
  | [] => simp [check_qr_timeout]
  | h :: t =>
    by_cases hc : now - h.timestamp > timeout
    · refine ⟨?_, ?_, ?_⟩
      · simp only [check_qr_timeout, if_pos hc, Option.isSome_some, true_iff]
        exact ⟨h, t, rfl, hc⟩
      · simp [check_qr_timeout, hc]
      · intro hd rest heq hgt
        cases heq
        simp [check_qr_timeout, hc]
    · refine ⟨?_, ?_, ?_⟩
      · constructor
        · intro hx
          exfalso
          simp [check_qr_timeout, hc] at hx
        · intro hx
          obtain ⟨x, xs, hxx, hxt⟩ := hx
          cases hxx
          exact absurd hxt hc
      · intro _
        simp [check_qr_timeout, hc]
      · intro hd rest heq hgt
        cases heq
        exact absurd hgt hc

/-- Witness for C4 amended: a strictly stale head is popped. -/
theorem check_qr_timeout_strict_witness :
    check_qr_timeout 6 5 [sampleItem] = (some sampleItem, []) :=
  (check_qr_timeout_strict 6 5 [sampleItem]).2.2 sampleItem [] rfl (by decide)

/-- C5 counterexample: the sequence consume-then-add has N = 1 adds and
M = 1 consumes, but leaves the token queue with length 1, not
max(0, N - M) = 0: the failing consume on the empty queue removes nothing. -/
theorem token_length_max_formula_counterexample :
    (run_token_ops [TokenOp.consume, TokenOp.add] []).1.length = 1 ∧
    count_adds [TokenOp.consume, TokenOp.add] = 1 ∧
    count_consumes [TokenOp.consume, TokenOp.add] = 1 ∧
    max (0 : Int) ((1 : Int) - (1 : Int)) = 0 ∧
    ((run_token_ops [TokenOp.consume, TokenOp.add] []).1.length : Int) ≠
      max (0 : Int) ((1 : Int) - (1 : Int)) := by
  refine ⟨rfl, rfl, rfl, by decide, by decide⟩

/-- Unfolding of count_adds over an add() call. -/
theorem count_adds_cons_add (ops : List TokenOp) :
    count_adds (TokenOp.add :: ops) = count_adds ops + 1 := by
  simp [count_adds]

/-- Unfolding of count_adds over a consume() call. -/
theorem count_adds_cons_consume (ops : List TokenOp) :
    count_adds (TokenOp.consume :: ops) = count_adds ops := by
  simp [count_adds]

/-- Length bookkeeping for run_token_ops from any starting queue. -/
theorem run_token_ops_length (ops : List TokenOp) :
    ∀ tq : List Bool,
      ((run_token_ops ops tq).1.length : Int) =
        (tq.length : Int) + (count_adds ops : Int) - ((run_token_ops ops tq).2 : Int) := by
  induction ops with
  | nil =>
    intro tq
    simp [run_token_ops, count_adds]
  | cons o ops ih =>
    intro tq
    cases o with
    | add =>
      have h := ih (add_entry_token tq).1
      rw [count_adds_cons_add]
      simp only [run_token_ops]
      simp only [add_entry_token, List.length_append, List.length_cons,
        List.length_nil] at h ⊢
      push_cast at h ⊢
      omega
    | consume =>
      rw [count_adds_cons_consume]
      cases tq with
      | nil =>
        have h := ih []
        simp only [run_token_ops, consume_entry_token] at h ⊢
        push_cast at h ⊢
        omega
      | cons b t =>
        have h := ih t
        simp only [run_token_ops, consume_entry_token, List.length_cons] at h ⊢
        push_cast at h ⊢
        omega

/-- C5 amended: from the empty token queue, the length after any sequence
of operations equals N minus the number of consume() calls that returned
True; and consume() returns True exactly when the count was positive at the
time of the call. -/
theorem token_length_adds_minus_successful :
    (∀ ops : List TokenOp,
        ((run_token_ops ops []).1.length : Int) =
          (count_adds ops : Int) - ((run_token_ops ops []).2 : Int)) ∧
    (∀ tq : List Bool, (consume_entry_token tq).1 = true ↔ 0 < tq.length) := by
  constructor
  · intro ops
    have h := run_token_ops_length ops []
    simpa using h
  · intro tq
    cases tq <;> simp [consume_entry_token]

/-- Witness for C5 amended at concrete inputs. -/
theorem token_length_adds_minus_successful_witness :
    (consume_entry_token [true]).1 = true ∧
    ((run_token_ops [TokenOp.add, TokenOp.add, TokenOp.consume] []).1.length : Int) =
      (count_adds [TokenOp.add, TokenOp.add, TokenOp.consume] : Int) -
        ((run_token_ops [TokenOp.add, TokenOp.add, TokenOp.consume] []).2 : Int) :=
  ⟨(token_length_adds_minus_successful.2 [true]).mpr (by decide),
   token_length_adds_minus_successful.1 [TokenOp.add, TokenOp.add, TokenOp.consume]⟩

/-- C3: when pop_qr_by_index finds an item for lane i, that item is the
first queued item targeting lane i, returned unchanged (in particular with
its original timestamp), and pushing it back to the queue head restores the
original subsequence of items targeting lane i. -/
theorem pop_then_push_front_preserves_lane_view :
    ∀ (q : List QRItem) (i : Nat) (item : QRItem),
      (pop_qr_by_index q i).1 = some item →
      item.lane_index = i ∧
      (q.filter (fun it => it.lane_index == i)).head? = some item ∧
      (add_qr_item_at_head (pop_qr_by_index q i).2 item).filter
          (fun it => it.lane_index == i) =
        q.filter (fun it => it.lane_index == i) := by
  intro q i
  induction q with
  | nil =>
    intro item h
    simp [pop_qr_by_index] at h
  | cons a t ih =>
    intro item h
    by_cases ha : a.lane_index = i
    · have hb : (fun it : QRItem => it.lane_index == i) a = true := by
        simpa using ha
      simp only [pop_qr_by_index, if_pos ha] at h ⊢
      cases h
      refine ⟨ha, ?_, ?_⟩
      · simp [List.filter_cons, hb]
      · rfl
    · have hb : (fun it : QRItem => it.lane_index == i) a = false := by
        simpa using ha
      simp only [pop_qr_by_index, if_neg ha] at h ⊢
      obtain ⟨h1, h2, h3⟩ := ih item h
      have hbi : (fun it : QRItem => it.lane_index == i) item = true := by
        simpa using h1
      refine ⟨h1, ?_, ?_⟩
      · simpa [List.filter_cons, hb] using h2
      · simp only [add_qr_item_at_head] at h3 ⊢
        simpa [List.filter_cons, hb, hbi] using h3

/-- Witness for C3 at a concrete two-item queue. -/
theorem pop_then_push_front_preserves_lane_view_witness :
    sampleItem.lane_index = 0 ∧
    (([sampleItemB, sampleItem].filter (fun it => it.lane_index == 0)).head? =
      some sampleItem) ∧
    ((add_qr_item_at_head (pop_qr_by_index [sampleItemB, sampleItem] 0).2
        sampleItem).filter (fun it => it.lane_index == 0) =
      [sampleItemB, sampleItem].filter (fun it => it.lane_index == 0)) :=
  pop_then_push_front_preserves_lane_view [sampleItemB, sampleItem] 0 sampleItem rfl

/-- C7: for both the gate sensor and the lane sensors, a falling edge at
exactly last_accepted + debounce is rejected (acceptance needs strictly
greater elapsed time), and of two falling edges less than debounce apart
only the first is accepted. -/
theorem debounce_strict_boundary_and_monotonic :
    ∀ (debounce last_trigger t0 d lane_last : Int),
      (entry_edge_step debounce (last_trigger + debounce) 0 last_trigger).1 = false ∧
      (lane_edge_step debounce (lane_last + debounce) 0 1 lane_last).1 = false ∧
      (d < debounce → (entry_edge_step debounce t0 0 last_trigger).1 = true →
        (entry_edge_step debounce (t0 + d) 0
          (entry_edge_step debounce t0 0 last_trigger).2).1 = false) ∧
      (d < debounce → (lane_edge_step debounce t0 0 1 lane_last).1 = true →
        (lane_edge_step debounce (t0 + d) 0 1
          (lane_edge_step debounce t0 0 1 lane_last).2).1 = false) := by
  intro db last t0 d ll
  refine ⟨?_, ?_, ?_, ?_⟩
  · simp only [entry_edge_step]
    split_ifs with h
    · exfalso
      obtain ⟨-, h2⟩ := h
      omega
    · rfl
  · simp only [lane_edge_step]
    split_ifs with h1 h2
    · exfalso
      omega
    · rfl
    · rfl
  · intro hd hacc
    simp only [entry_edge_step] at hacc ⊢
    split_ifs at hacc ⊢ with h1 h2
    all_goals simp_all
    all_goals omega
  · intro hd hacc
    simp only [lane_edge_step] at hacc ⊢
    split_ifs at hacc ⊢ with h1 h2 h3
    all_goals simp_all
    all_goals omega

/-- Witness for C7 at concrete times (debounce 10, first edge accepted at
t = 11, second edge 3 later). -/
theorem debounce_strict_boundary_and_monotonic_witness :
    (entry_edge_step 10 (0 + 10) 0 0).1 = false ∧
    (lane_edge_step 10 (0 + 10) 0 1 0).1 = false ∧
    (entry_edge_step 10 (11 + 3) 0 (entry_edge_step 10 11 0 0).2).1 = false ∧
    (lane_edge_step 10 (11 + 3) 0 1 (lane_edge_step 10 11 0 1 0).2).1 = false := by
  have h := debounce_strict_boundary_and_monotonic 10 0 11 3 0
  exact ⟨h.1, h.2.1, h.2.2.1 (by decide) (by decide), h.2.2.2 (by decide) (by decide)⟩

/-- C10: read_sensor never propagates an exception (its result is a plain
value for every provider outcome); a None pin reads HIGH without consulting
the provider and leaves the error state untouched; a failing provider read
latches maintenance and reads HIGH; and a None or failing read therefore
reads 1 and can never be accepted as a falling edge by either edge
detector. -/
theorem read_sensor_total_and_inactive :
    ∀ (gpio_read : Nat → Except String Nat) (err : ErrorHandlerState),
      read_sensor gpio_read err none = (1, err) ∧
      (∀ p e, gpio_read p = Except.error e →
        read_sensor gpio_read err (some p) =
          (1, trigger_maintenance err ("read sensor failure"))) ∧
      (∀ pin : Option Nat,
        (pin = none ∨ ∃ p e, pin = some p ∧ gpio_read p = Except.error e) →
        (read_sensor gpio_read err pin).1 = 1 ∧
        ∀ (debounce now last_trigger : Int) (last_level : Nat),
          (entry_edge_step debounce now (read_sensor gpio_read err pin).1
            last_trigger).1 = false ∧
          (lane_edge_step debounce now (read_sensor gpio_read err pin).1
            last_level last_trigger).1 = false) := by
  intro gpio_read err
  refine ⟨rfl, ?_, ?_⟩
  · intro p e he
    simp [read_sensor, he]
  · intro pin hpin
    have h1 : (read_sensor gpio_read err pin).1 = 1 := by
      rcases hpin with h | ⟨p, e, hp, he⟩
      · subst h; rfl
      · subst hp; simp [read_sensor, he]
    refine ⟨h1, ?_⟩
    intro db now lt ll
    rw [h1]
    constructor
    · simp [entry_edge_step]
    · simp [lane_edge_step]

/-- Characters kept by stripLoai are characters of the input (the function
only ever drops a prefix).  Fuel-indexed so the induction follows the
4-or-2 character descent of the source regex loop. -/
theorem mem_stripLoai_aux :
    ∀ (n : Nat) (l : List Char), l.length ≤ n → ∀ c, c ∈ stripLoai l → c ∈ l := by
  intro n
  induction n with
  | zero =>
    intro l hl c hc
    have hnil : l = [] := List.length_eq_zero.mp (Nat.le_zero.mp hl)
    subst hnil
    exact hc
  | succ n ih =>
    intro l hl c hc
    rw [stripLoai.eq_def] at hc
    split at hc
    next rest =>
      have hm := ih rest (by simp at hl; omega) c hc
      simp [hm]
    next rest hne =>
      have hm := ih rest (by simp at hl; omega) c hc
      simp [hm]
    next => exact hc

/-- Membership form of mem_stripLoai_aux. -/
theorem mem_stripLoai {c : Char} {l : List Char} (hc : c ∈ stripLoai l) : c ∈ l :=
  mem_stripLoai_aux l.length l le_rfl c hc

/-- The result of stripLoai never starts with the two characters LO: the
greedy loop stops only at a position where neither alternative matches. -/
theorem stripLoai_ne_lo_aux :
    ∀ (n : Nat) (l : List Char), l.length ≤ n →
      ∀ rest : List Char, stripLoai l ≠ 'L' :: 'O' :: rest := by
  intro n
  induction n with
  | zero =>
    intro l hl rest
    have hnil : l = [] := List.length_eq_zero.mp (Nat.le_zero.mp hl)
    subst hnil
    simp [stripLoai]
  | succ n ih =>
    intro l hl rest
    rw [stripLoai.eq_def]
    split
    next t => exact ih t (by simp at hl; omega) rest
    next t hne => exact ih t (by simp at hl; omega) rest
    next s h1 h2 => exact fun hx => h2 rest hx

/-- Closed form of stripLoai_ne_lo_aux. -/
theorem stripLoai_not_lo (l : List Char) :
    ∀ rest : List Char, stripLoai l ≠ 'L' :: 'O' :: rest :=
  stripLoai_ne_lo_aux l.length l le_rfl

/-- stripLoai fixes every list that does not start with LO. -/
theorem stripLoai_of_not_lo (l : List Char)
    (h : ∀ rest : List Char, l ≠ 'L' :: 'O' :: rest) : stripLoai l = l := by
  rw [stripLoai.eq_def]
  split
  next rest => exact absurd rfl (h ('A' :: 'I' :: rest))
  next rest hne => exact absurd rfl (h rest)
  next => rfl

/-- Numeric reading of the isUpperAlnum filter test. -/
theorem upperAlnum_toNat {c : Char} (h : isUpperAlnum c = true) :
    (65 ≤ c.toNat ∧ c.toNat ≤ 90) ∨ (48 ≤ c.toNat ∧ c.toNat ≤ 57) := by
  simpa [isUpperAlnum, Bool.or_eq_true, Bool.and_eq_true,
    decide_eq_true_iff] using h

/-- Uppercase alphanumerics are not whitespace. -/
theorem pyWhitespace_false_of_upperAlnum {c : Char} (h : isUpperAlnum c = true) :
    isPyWhitespace c = false := by
  have hb := upperAlnum_toNat h
  cases hws : isPyWhitespace c
  · rfl
  · exfalso
    have hn : c.toNat = 32 ∨ (9 ≤ c.toNat ∧ c.toNat ≤ 13) := by
      simpa [isPyWhitespace, Bool.or_eq_true, Bool.and_eq_true,
        decide_eq_true_iff] using hws
    omega

/-- Uppercase alphanumerics are not combining marks. -/
theorem combining_false_of_upperAlnum {c : Char} (h : isUpperAlnum c = true) :
    combining c = false := by
  have hb := upperAlnum_toNat h
  cases hcm : combining c
  · rfl
  · exfalso
    have hn : 768 ≤ c.toNat ∧ c.toNat ≤ 879 := by
      simpa [combining, Bool.and_eq_true, decide_eq_true_iff] using hcm
    omega

/-- Uppercase alphanumerics are fixed by the uppercasing stage. -/
theorem pyUpperChar_fixed {c : Char} (h : isUpperAlnum c = true) :
    pyUpperChar c = c := by
  have hb := upperAlnum_toNat h
  have hcond : ¬(97 ≤ c.toNat ∧ c.toNat ≤ 122) := by omega
  simp [pyUpperChar, hcond]

/-- dropWhile is the identity when the predicate rejects every element. -/
theorem dropWhile_id_of_all {p : Char → Bool} {l : List Char}
    (h : ∀ c ∈ l, p c = false) : l.dropWhile p = l := by
  cases l with
  | nil => rfl
  | cons a t => simp [List.dropWhile_cons, h a (by simp)]

/-- pyStrip fixes uppercase-alphanumeric strings. -/
theorem pyStrip_id_of_upperAlnum {l : List Char}
    (h : ∀ c ∈ l, isUpperAlnum c = true) : pyStrip l = l := by
  have h1 : ∀ c ∈ l, isPyWhitespace c = false :=
    fun c hc => pyWhitespace_false_of_upperAlnum (h c hc)
  unfold pyStrip
  rw [dropWhile_id_of_all h1]
  rw [dropWhile_id_of_all (fun c hc => h1 c (List.mem_reverse.mp hc))]
  exact List.reverse_reverse l

/-- strip_accents fixes uppercase-alphanumeric strings. -/
theorem strip_accents_id_of_upperAlnum {l : List Char}
    (h : ∀ c ∈ l, isUpperAlnum c = true) : strip_accents l = l := by
  unfold strip_accents
  induction l with
  | nil => rfl
  | cons a t ih =>
    have ha : combining a = false :=
      combining_false_of_upperAlnum (h a (by simp))
    simp only [List.filter_cons, ha]
    simp [ih (fun c hc => h c (by simp [hc]))]

/-- pyUpper fixes uppercase-alphanumeric strings. -/
theorem pyUpper_id_of_upperAlnum {l : List Char}
    (h : ∀ c ∈ l, isUpperAlnum c = true) : pyUpper l = l := by
  unfold pyUpper
  induction l with
  | nil => rfl
  | cons a t ih =>
    have ha : pyUpperChar a = a := pyUpperChar_fixed (h a (by simp))
    simp [ha, ih (fun c hc => h c (by simp [hc]))]

/-- The filter stage fixes uppercase-alphanumeric strings. -/
theorem filter_id_of_upperAlnum {l : List Char}
    (h : ∀ c ∈ l, isUpperAlnum c = true) : l.filter isUpperAlnum = l := by
  induction l with
  | nil => rfl
  | cons a t ih =>
    simp only [List.filter_cons, h a (by simp)]
    simp [ih (fun c hc => h c (by simp [hc]))]

/-- Every character of a canonical key is an uppercase ASCII alphanumeric. -/
theorem canon_id_all_upperAlnum (s : List Char) :
    ∀ c ∈ canon_id s, isUpperAlnum c = true := by
  intro c hc
  unfold canon_id at hc
  exact List.of_mem_filter (mem_stripLoai hc)

/-- A canonical key never starts with LO (nor, a fortiori, with LOAI). -/
theorem canon_id_not_lo (s : List Char) :
    ∀ rest : List Char, canon_id s ≠ 'L' :: 'O' :: rest := by
  unfold canon_id
  exact stripLoai_not_lo _

/-- C9: the canonical-key function is idempotent: canon(canon(s)) equals
canon(s) for every input string. -/
theorem canon_id_idempotent (s : List Char) :
    canon_id (canon_id s) = canon_id s := by
  have hall := canon_id_all_upperAlnum s
  have h1 : pyStrip (canon_id s) = canon_id s := pyStrip_id_of_upperAlnum hall
  have h2 : strip_accents (canon_id s) = canon_id s :=
    strip_accents_id_of_upperAlnum hall
  have h3 : pyUpper (canon_id s) = canon_id s := pyUpper_id_of_upperAlnum hall
  have h4 : (canon_id s).filter isUpperAlnum = canon_id s :=
    filter_id_of_upperAlnum hall
  have h5 : stripLoai (canon_id s) = canon_id s :=
    stripLoai_of_not_lo _ (canon_id_not_lo s)
  have hstep : canon_id (canon_id s) =
      stripLoai ((pyUpper (strip_accents (unicodeEscapeTry
        (pyStrip (canon_id s))))).filter isUpperAlnum) := rfl
  rw [hstep, h1]
  rw [show unicodeEscapeTry (canon_id s) = canon_id s from rfl]
  rw [h2, h3, h4, h5]

/-- Witness for C9 at a concrete code string. -/
theorem canon_id_idempotent_witness :
    canon_id (canon_id ['L', 'O', 'A', 'I', 'b', '-', '2']) =
      canon_id ['L', 'O', 'A', 'I', 'b', '-', '2'] :=
  canon_id_idempotent ['L', 'O', 'A', 'I', 'b', '-', '2']

/-- Witness for C10: a provider that always raises, read through pin 5, and
the None pin, both read HIGH. -/
theorem read_sensor_total_and_inactive_witness :
    read_sensor (fun _ => Except.error ("boom"))
        { maintenance_mode := false, last_error := none } (some 5) =
      (1, { maintenance_mode := true, last_error := some ("read sensor failure") }) ∧
    (read_sensor (fun _ => Except.error ("boom"))
        { maintenance_mode := false, last_error := none } (some 5)).1 = 1 := by
  have h := read_sensor_total_and_inactive (fun _ => Except.error ("boom"))
    { maintenance_mode := false, last_error := none }
  exact ⟨h.2.1 5 ("boom") rfl, (h.2.2 (some 5) (Or.inr ⟨5, ("boom"), rfl, rfl⟩)).1⟩

/-- Sorting lane A of the end-to-end scenario configuration. -/
def laneA : Lane :=
  { name := "A", id := "A", status := "Sẵn sàng", count := 0,
    sensor_pin := some 3, push_pin := some 17, pull_pin := some 27,
    sensor_reading := 1, relay_grab := 0, relay_push := 0 }

/-- Sorting lane B of the end-to-end scenario configuration. -/
def laneB : Lane :=
  { name := "B", id := "B", status := "Sẵn sàng", count := 0,
    sensor_pin := some 23, push_pin := some 22, pull_pin := some 14,
    sensor_reading := 1, relay_grab := 0, relay_push := 0 }

/-- Pass-through lane D of the end-to-end scenario configuration. -/
def laneD : Lane :=
  { name := "D", id := "D", status := "Sẵn sàng", count := 0,
    sensor_pin := some 5, push_pin := none, pull_pin := none,
    sensor_reading := 1, relay_grab := 0, relay_push := 0 }

/-- A healthy three-lane monitor state: two unconsumed tokens, empty QR
queue, no maintenance, no auto-test. -/
def monSample : MonState :=
  { lanes := [laneA, laneB, laneD]
    qm := { qr_queue := [], entry_queue := [true, true], queue_indices := [] }
    err := { maintenance_mode := false, last_error := none }
    auto_test_enabled := false
    last_s_state := [1, 1, 1]
    last_s_trig := [0, 0, 0]
    last_entry_trigger_time := 0
    sorts := [] }

/-- Provider readings for the C1 evaluation: the gate pin reads active (0),
every lane sensor reads inactive (1), no read fails. -/
def readGateActive : Nat → Except String Nat :=
  fun p => Except.ok (if p = PIN_ENTRY then 0 else 1)

/-- C1 (evaluation at the failing input): on a healthy iteration with three
lanes, gate reading 0 and three unconsumed tokens at export time, the state
store afterwards still has exactly three lane slots and none of them holds
the entry_token_count key: update_lane_status rejects the out-of-range
index num_lanes = 3 (its bound check is 0 <= index < len(lanes)), so both
synthetic-slot writes of the monitor are silently dropped and no entry slot
ever exists. -/
theorem entry_slot_export_dropped :
    update_lane_status monSample.lanes 3 { sensor_reading := some 0 } =
      (monSample.lanes, false) ∧
    (sensor_iteration 1 15 100 readGateActive monSample).lanes.length = 3 ∧
    ((sensor_iteration 1 15 100 readGateActive monSample).lanes.map
      (fun l => l.entry_token_count)) = [none, none, none] ∧
    (sensor_iteration 1 15 100 readGateActive monSample).qm.entry_queue.length = 3 := by
  refine ⟨rfl, rfl, rfl, rfl⟩

/-- C6 (evaluation at the failing input): a full piston cycle on lane A in
which the push-relay write (pin 17) fails is not an execution without
error — maintenance gets latched by the GPIO handler — yet the swallowed
exception leaves operation_successful True, so the count is incremented
and the status set back to ready. -/
theorem sort_count_incremented_despite_relay_error :
    (sorting_process (fun p => p = 17) (fun _ => true) laneA
        { maintenance_mode := false, last_error := none }).1.count = laneA.count + 1 ∧
    (sorting_process (fun p => p = 17) (fun _ => true) laneA
        { maintenance_mode := false, last_error := none }).1.status = "Sẵn sàng" ∧
    (sorting_process (fun p => p = 17) (fun _ => true) laneA
        { maintenance_mode := false, last_error := none }).2.1.maintenance_mode = true ∧
    (sorting_process (fun p => p = 17) (fun _ => true) laneA
        { maintenance_mode := false, last_error := none }).2.2.2 = true := by
  refine ⟨rfl, rfl, rfl, rfl⟩

/-- An in-flight piston cycle for the lane A pins, with the system running
and maintenance not yet latched. -/
def inflightConf : CoreConf :=
  { err := { maintenance_mode := false, last_error := none }
    pending := sort_cycle_events 17 27
    running := true
    trace := [] }

/-- C2 counterexample: from an in-flight sort cycle, latching maintenance
and then letting the worker run its next phase is a reachable execution in
which a relay_off call is issued while maintenance is active: the phases of
_sorting_process (and of the test sweep) are guarded only by main_running. -/
theorem relay_call_during_maintenance_reachable :
    ∃ c : CoreConf, CoreReachable inflightConf c ∧
      (true, RelayEvent.off 27) ∈ c.trace := by
  refine ⟨_, CoreReachable.tail (CoreReachable.tail (CoreReachable.refl inflightConf)
      (CoreStep.trigger inflightConf ("jam detected")))
      (CoreStep.relayStep _ (RelayEvent.off 27)
        [RelayEvent.on 17, RelayEvent.off 17, RelayEvent.on 27] rfl rfl), ?_⟩
  decide

/-- C2 amended: while maintenance is active the sensor monitor performs no
iteration work at all (no reads, no queue changes, no sort dispatch), so no
new actuator activity originates from the core; but a worker already in
flight keeps issuing its remaining relay calls — the step is available with
any maintenance flag, being guarded only by main_running. -/
theorem maintenance_gates_new_activity_only :
    (∀ (debounce queue_timeout now : Int) (gpio_read : Nat → Except String Nat)
        (s : MonState), is_maintenance s.err = true →
        sensor_iteration debounce queue_timeout now gpio_read s = s) ∧
    (∀ (c : CoreConf) (e : RelayEvent) (rest : List RelayEvent),
        c.pending = e :: rest → c.running = true →
        CoreStep c
          { c with
            pending := rest,
            trace := c.trace ++ [(c.err.maintenance_mode, e)] }) := by
  constructor
  · intro db qt now rd s h
    simp [sensor_iteration, h]
  · intro c e rest hp hr
    exact CoreStep.relayStep c e rest hp hr

/-- The monitor state of the witness below, latched into maintenance. -/
def maintenanceMonSample : MonState :=
  { monSample with err := { maintenance_mode := true, last_error := some ("jam") } }

/-- An in-flight piston cycle with maintenance already latched. -/
def inflightMaintConf : CoreConf :=
  { err := { maintenance_mode := true, last_error := some ("jam") }
    pending := sort_cycle_events 17 27
    running := true
    trace := [] }

/-- Witness for C2 amended: a concrete maintenance iteration is a no-op,
and a concrete in-flight worker still steps, emitting a relay call tagged
with the active maintenance flag. -/
theorem maintenance_gates_new_activity_only_witness :
    sensor_iteration 1 15 100 readGateActive maintenanceMonSample =
      maintenanceMonSample ∧
    CoreStep inflightMaintConf
      { inflightMaintConf with
        pending := [RelayEvent.on 17, RelayEvent.off 17, RelayEvent.on 27],
        trace := inflightMaintConf.trace ++
          [(inflightMaintConf.err.maintenance_mode, RelayEvent.off 27)] } :=
  ⟨maintenance_gates_new_activity_only.1 1 15 100 readGateActive
      maintenanceMonSample rfl,
   maintenance_gates_new_activity_only.2 inflightMaintConf (RelayEvent.off 27)
      [RelayEvent.on 17, RelayEvent.off 17, RelayEvent.on 27] (by decide) rfl⟩

end QrScan
